import Mathlib

/-!
Verification development for the ASPECT plugin layer: the postprocessor
accessor boundary (`include/aspect/post_processor.h`) and the compositional
initial-condition `Function` plugin
(`include/aspect/compositional_initial_conditions/function.h`).

The repository provides only the two header files; member function bodies live
elsewhere.  Declarations (signatures, member types, `const` and `static`
qualifiers) are embedded directly from the headers; behaviour that the headers
only declare is modelled from the specification, and every such definition is
marked `Modelled from the spec:` in its doc comment.
-/

deriving instance DecidableEq for Except

namespace Aspect

/-- How a C++ member function returns its result: by value (a copy), by
`const` reference, or by mutable reference.  Transcribed from the accessor
declarations of `Postprocess::Base` in `post_processor.h`. -/
inductive ReturnKind where
  | byValue
  | constRef
  | mutableRef
deriving DecidableEq, Repr

/-- The C++ return type of an accessor of `Postprocess::Base`, as written in
`post_processor.h`: `double`, `const TrilinosWrappers::Vector &`, or
`const parallel::distributed::DoFhandler<dim> &`. -/
inductive ReturnType where
  | double
  | trilinosVector
  | distributedDofHandler
deriving DecidableEq, Repr

/-- The eight protected accessors declared by `Postprocess::Base`
(`post_processor.h`, lines 59-145). -/
inductive AccessorName where
  | getTime
  | getTimestepNumber
  | getStokesSolution
  | getOldStokesSolution
  | getStokesDofHandler
  | getTemperatureSolution
  | getOldTemperatureSolution
  | getTemperatureDofHandler
deriving DecidableEq, Repr, Fintype

/-- The tracked quantities of the snapshot per the spec: time, step number,
current/previous flow (Stokes) solution, flow DoF map, current/previous
temperature solution, temperature DoF map. -/
inductive TrackedQuantity where
  | time
  | stepNumber
  | currentFlow
  | previousFlow
  | flowDofMap
  | currentTemperature
  | previousTemperature
  | temperatureDofMap
deriving DecidableEq, Repr, Fintype

/-- Return kind of each accessor, read off the declarations in
`post_processor.h`: `double get_time () const` and
`double get_timestep_number () const` return by value; the six vector and
DoF-handler accessors return `const ... &`. -/
def accessorReturnKind : AccessorName → ReturnKind
  | .getTime => .byValue
  | .getTimestepNumber => .byValue
  | .getStokesSolution => .constRef
  | .getOldStokesSolution => .constRef
  | .getStokesDofHandler => .constRef
  | .getTemperatureSolution => .constRef
  | .getOldTemperatureSolution => .constRef
  | .getTemperatureDofHandler => .constRef

/-- Return type of each accessor, read off the declarations in
`post_processor.h`. -/
def accessorReturnType : AccessorName → ReturnType
  | .getTime => .double
  | .getTimestepNumber => .double
  | .getStokesSolution => .trilinosVector
  | .getOldStokesSolution => .trilinosVector
  | .getStokesDofHandler => .distributedDofHandler
  | .getTemperatureSolution => .trilinosVector
  | .getOldTemperatureSolution => .trilinosVector
  | .getTemperatureDofHandler => .distributedDofHandler

/-- The accessor of `Postprocess::Base` that exposes each tracked quantity,
read off `post_processor.h`. -/
def accessorFor : TrackedQuantity → AccessorName
  | .time => .getTime
  | .stepNumber => .getTimestepNumber
  | .currentFlow => .getStokesSolution
  | .previousFlow => .getOldStokesSolution
  | .flowDofMap => .getStokesDofHandler
  | .currentTemperature => .getTemperatureSolution
  | .previousTemperature => .getOldTemperatureSolution
  | .temperatureDofMap => .getTemperatureDofHandler

/-- Index-based mutation of the underlying state through an accessor result is
possible only when the accessor hands out a mutable reference: a by-value copy
or a `const` reference gives no write path into the state. -/
def allowsIndexedMutation : ReturnKind → Bool
  | .mutableRef => true
  | _ => false

/-- A degree-of-freedom map: mesh entities to solution-vector indices
(spec §3, `DegreeOfFreedomMap`). -/
abbrev DofMap := List Nat

/-- The simulator core's state as far as the snapshot boundary observes it:
scalar scheduling metadata plus, per physics system, current and previous
solution vectors and a DoF map.  `Option` models "not yet initialized for the
requested time step" (spec §4.1).  C++ `double` scalars are modelled as `ℚ`. -/
structure CoreState where
  time : ℚ
  timestepNumber : Nat
  stokesSolution : Option (List ℚ)
  oldStokesSolution : Option (List ℚ)
  stokesDofHandler : Option DofMap
  temperatureSolution : Option (List ℚ)
  oldTemperatureSolution : Option (List ℚ)
  temperatureDofHandler : Option DofMap
deriving DecidableEq

/-- The state a `Postprocess::Base` snapshot exposes: one field per tracked
quantity, with `get_timestep_number` returning `double` (modelled as `ℚ`). -/
structure Snapshot where
  time : ℚ
  timestepNumber : ℚ
  stokesSolution : List ℚ
  oldStokesSolution : List ℚ
  stokesDofHandler : DofMap
  temperatureSolution : List ℚ
  oldTemperatureSolution : List ℚ
  temperatureDofHandler : DofMap
deriving DecidableEq

/-- Modelled from the spec: the body of the constructor
`Postprocess::Base::Base (const Simulator<dim> &)` is not in the repository
(only its declaration, `post_processor.h` lines 50-56).  Per spec §4.1 the
constructor takes a reference to the core's current state, aborts construction
when required vectors/maps are not yet initialized (modelled as `none`), and
otherwise captures the quantities of the core state at construction time, the
step number being exposed through a `double`-returning accessor. -/
def buildSnapshot (s : CoreState) : Option Snapshot :=
  match s.stokesSolution, s.oldStokesSolution, s.stokesDofHandler,
        s.temperatureSolution, s.oldTemperatureSolution, s.temperatureDofHandler with
  | some v, some ov, some m, some t, some ot, some tm =>
      some { time := s.time
             timestepNumber := (s.timestepNumber : ℚ)
             stokesSolution := v
             oldStokesSolution := ov
             stokesDofHandler := m
             temperatureSolution := t
             oldTemperatureSolution := ot
             temperatureDofHandler := tm }
  | _, _, _, _, _, _ => none

/-- All six non-scalar quantities of a core state are initialized. -/
def CoreState.initialized (s : CoreState) : Prop :=
  s.stokesSolution.isSome ∧ s.oldStokesSolution.isSome ∧ s.stokesDofHandler.isSome ∧
    s.temperatureSolution.isSome ∧ s.oldTemperatureSolution.isSome ∧
    s.temperatureDofHandler.isSome

instance (s : CoreState) : Decidable s.initialized := by
  unfold CoreState.initialized; infer_instance

/-! Below: the core/snapshot system and the postprocessor boundary. -/

/-- One atomic action of the simulator core at the snapshot boundary: either
building a snapshot for a postprocessing pass, or advancing its own state (a
time step or a mesh adaptation — an arbitrary update of the core state). -/
inductive CoreAction where
  | snap : CoreAction
  | advance : (CoreState → CoreState) → CoreAction

/-- Perform one core action on the pair (core state, snapshots built so
far).  Building a snapshot reads the core and never writes it; advancing the
core touches no snapshot already built. -/
def stepAction (st : CoreState × List Snapshot) :
    CoreAction → CoreState × List Snapshot
  | .snap =>
      match buildSnapshot st.1 with
      | some sn => (st.1, sn :: st.2)
      | none => st
  | .advance f => (f st.1, st.2)

/-- Run a sequence of core actions. -/
def runActions (st : CoreState × List Snapshot) :
    List CoreAction → CoreState × List Snapshot
  | [] => st
  | a :: rest => runActions (stepAction st a) rest

/-- Modelled from the spec: the postprocessor interface carrying `execute` is
not in the repository (only the accessor base class `Postprocess::Base` is).
Per spec §4.2 a postprocessor provides `execute(snapshot)`, which consumes a
state snapshot and produces a short human-readable result string plus bounded
side effects, modelled as a list of (file name, contents) writes to the
plugin's own output targets. -/
structure Postprocessor where
  execute : Snapshot → String × List (String × String)

/-- One postprocessing pass: the dispatcher builds a snapshot of the core
state and invokes each registered postprocessor on it in registration order,
collecting the results; the plugins reach the simulator only through the
read-only snapshot, so the pass hands the core state back untouched. -/
def runPostprocessors (core : CoreState) :
    List Postprocessor → CoreState × List (String × List (String × String))
  | [] => (core, [])
  | pp :: rest =>
      match buildSnapshot core with
      | some sn =>
          let r := pp.execute sn
          let after := runPostprocessors core rest
          (after.1, r :: after.2)
      | none => (core, [])

/-! Below: the parsed-function evaluator and the `Function` plugin. -/

/-- A mathematical expression over the spatial coordinates, the target of
parsing one component of the configured "Function expression" text.
Modelled from the spec: the expression evaluator itself
(`Functions::ParsedFunction`, a collaborator of the plugin) is not part of the
repository; spec §2 describes it as wrapping a mathematical-expression string
into a callable position-to-value evaluator. -/
inductive Expr where
  | const : ℚ → Expr
  | var : Nat → Expr
  | add : Expr → Expr → Expr
  | sub : Expr → Expr → Expr
  | mul : Expr → Expr → Expr
  | pow : Expr → Nat → Expr
deriving DecidableEq, Repr

/-- Iterated product on `ℚ` (the expression grammar's power operator). -/
def powQ (q : ℚ) : Nat → ℚ
  | 0 => 1
  | n + 1 => q * powQ q n

/-- Evaluate an expression at a position (the list of spatial coordinates,
variable `0` being `x`, `1` being `y`, `2` being `z`). -/
def Expr.eval (p : List ℚ) : Expr → ℚ
  | .const q => q
  | .var i => p.getD i 0
  | .add a b => a.eval p + b.eval p
  | .sub a b => a.eval p - b.eval p
  | .mul a b => a.eval p * b.eval p
  | .pow a n => powQ (a.eval p) n

/-- Tokens of the expression grammar. -/
inductive Tok where
  | num : Nat → Tok
  | ident : String → Tok
  | plus
  | minus
  | star
  | caret
  | lparen
  | rparen
deriving DecidableEq, Repr

/-- Numeric value of a digit string. -/
def digitsToNat (ds : List Char) : Nat :=
  ds.foldl (fun acc c => 10 * acc + (c.toNat - 48)) 0

/-- Tokenizer for expression text, fuelled by the input length. -/
def lexAux : Nat → List Char → List Tok → Option (List Tok)
  | 0, _, _ => none
  | _ + 1, [], acc => some acc.reverse
  | fuel + 1, c :: cs, acc =>
    if c = ' ' then lexAux fuel cs acc
    else if c.isDigit then
      lexAux fuel ((c :: cs).dropWhile Char.isDigit)
        (Tok.num (digitsToNat ((c :: cs).takeWhile Char.isDigit)) :: acc)
    else if c.isAlpha then
      lexAux fuel ((c :: cs).dropWhile Char.isAlpha)
        (Tok.ident (String.mk ((c :: cs).takeWhile Char.isAlpha)) :: acc)
    else if c = '+' then lexAux fuel cs (Tok.plus :: acc)
    else if c = '-' then lexAux fuel cs (Tok.minus :: acc)
    else if c = '*' then lexAux fuel cs (Tok.star :: acc)
    else if c = '^' then lexAux fuel cs (Tok.caret :: acc)
    else if c = '(' then lexAux fuel cs (Tok.lparen :: acc)
    else if c = ')' then lexAux fuel cs (Tok.rparen :: acc)
    else none

/-- Tokenize a component expression string. -/
def lexTokens (s : String) : Option (List Tok) :=
  lexAux (s.length + 1) s.toList []

/-- The spatial variables available in a `dim`-dimensional run: `x`, and `y`,
`z` when the dimension admits them. -/
def varIndex (dim : Nat) (s : String) : Option Nat :=
  if s = "x" ∧ 1 ≤ dim then some 0
  else if s = "y" ∧ 2 ≤ dim then some 1
  else if s = "z" ∧ 3 ≤ dim then some 2
  else none

mutual

/-- Atoms: numbers, spatial variables, parenthesized sums. -/
def parseAtom (dim : Nat) : Nat → List Tok → Option (Expr × List Tok)
  | 0, _ => none
  | _ + 1, Tok.num n :: rest => some (Expr.const (n : ℚ), rest)
  | _ + 1, Tok.ident s :: rest =>
      match varIndex dim s with
      | some i => some (Expr.var i, rest)
      | none => none
  | fuel + 1, Tok.lparen :: rest =>
      match parseSum dim fuel rest with
      | some (e, Tok.rparen :: rest2) => some (e, rest2)
      | _ => none
  | _ + 1, _ => none

/-- Factors: an atom optionally raised to a literal power. -/
def parseFactor (dim : Nat) : Nat → List Tok → Option (Expr × List Tok)
  | 0, _ => none
  | fuel + 1, ts =>
      match parseAtom dim fuel ts with
      | some (e, Tok.caret :: Tok.num n :: rest) => some (Expr.pow e n, rest)
      | r => r

/-- Products of factors. -/
def parseProd (dim : Nat) : Nat → List Tok → Option (Expr × List Tok)
  | 0, _ => none
  | fuel + 1, ts =>
      match parseFactor dim fuel ts with
      | some (e, rest) => parseProdRest dim fuel e rest
      | none => none

/-- Left-associated continuation of a product. -/
def parseProdRest (dim : Nat) : Nat → Expr → List Tok → Option (Expr × List Tok)
  | 0, _, _ => none
  | fuel + 1, e, Tok.star :: rest =>
      match parseFactor dim fuel rest with
      | some (e2, rest2) => parseProdRest dim fuel (Expr.mul e e2) rest2
      | none => none
  | _ + 1, e, ts => some (e, ts)

/-- Sums and differences of products. -/
def parseSum (dim : Nat) : Nat → List Tok → Option (Expr × List Tok)
  | 0, _ => none
  | fuel + 1, ts =>
      match parseProd dim fuel ts with
      | some (e, rest) => parseSumRest dim fuel e rest
      | none => none

/-- Left-associated continuation of a sum. -/
def parseSumRest (dim : Nat) : Nat → Expr → List Tok → Option (Expr × List Tok)
  | 0, _, _ => none
  | fuel + 1, e, Tok.plus :: rest =>
      match parseProd dim fuel rest with
      | some (e2, rest2) => parseSumRest dim fuel (Expr.add e e2) rest2
      | none => none
  | fuel + 1, e, Tok.minus :: rest =>
      match parseProd dim fuel rest with
      | some (e2, rest2) => parseSumRest dim fuel (Expr.sub e e2) rest2
      | none => none
  | _ + 1, e, ts => some (e, ts)

end

/-- Parse one component expression: it is syntactically valid when the
tokenizer accepts it and the grammar consumes every token. -/
def parseExpression (dim : Nat) (s : String) : Option Expr :=
  match lexTokens s with
  | none => none
  | some ts =>
      match parseSum dim (4 * ts.length + 8) ts with
      | some (e, []) => some e
      | _ => none

/-- Parse every component of a semicolon-split expression text; fails when any
component fails. -/
def parseAll (dim : Nat) : List String → Option (List Expr)
  | [] => some []
  | s :: rest =>
      match parseExpression dim s, parseAll dim rest with
      | some e, some es => some (e :: es)
      | _, _ => none

/-- Split a character list at every semicolon (`acc` holds the reversed
current component). -/
def splitSemiAux : List Char → List Char → List (List Char)
  | [], acc => [acc.reverse]
  | c :: cs, acc =>
      if c = ';' then acc.reverse :: splitSemiAux cs []
      else splitSemiAux cs (c :: acc)

/-- The semicolon-separated components of an expression text. -/
def splitComponents (s : String) : List String :=
  (splitSemiAux s.toList []).map String.mk

/-- Modelled from the spec: the configured "Function expression" text is one
sub-expression per semicolon-separated component (spec §6); it is
syntactically valid for a declared component count `n` exactly when it splits
into `n` sub-expressions each of which parses over the run's spatial
variables. -/
def parseComponents (dim n : Nat) (s : String) : Option (List Expr) :=
  if (splitComponents s).length = n then parseAll dim (splitComponents s) else none

/-- The parsed-function evaluator held by the plugin after configuration: a
vector-valued function, one expression per component. -/
structure ParsedFunction where
  components : List Expr
deriving DecidableEq

/-- Faults that can occur when evaluating `initial_composition`: dereferencing
a null evaluator handle, or selecting a component the evaluator does not
declare. -/
inductive EvalFault where
  | nullEvaluator
  | componentOutOfRange
deriving DecidableEq, Repr

/-- Component `comp` of the evaluator at position `p`. -/
def ParsedFunction.value (f : ParsedFunction) (p : List ℚ) (comp : Nat) :
    Except EvalFault ℚ :=
  match f.components[comp]? with
  | some e => .ok (e.eval p)
  | none => .error .componentOutOfRange

/-- The `Function<dim>` plugin object.  Its single data member is
`std::auto_ptr<Functions::ParsedFunction<dim>> function` (function.h line 82);
`none` models a null `auto_ptr` (the state before configuration, or after
being copied from). -/
structure FunctionPlugin where
  function : Option ParsedFunction
deriving DecidableEq

/-- Modelled from the spec: the body of
`Function::initial_composition (const Point<dim> &, const unsigned int) const`
is not in the repository (only the `const` declaration, function.h lines
55-56).  Per spec §4.3 it delegates to the parsed-function evaluator, passing
the position as the argument vector and the field index as the output
component selector; dereferencing a null `auto_ptr` is a fault, modelled as
`EvalFault.nullEvaluator`. -/
def initialComposition (pl : FunctionPlugin) (p : List ℚ) (n_comp : Nat) :
    Except EvalFault ℚ :=
  match pl.function with
  | none => .error .nullEvaluator
  | some f => f.value p n_comp

/-- Copy-constructing a `Function<dim>` object.  The class declares no copy
constructor, so the implicitly generated one copies the member
`std::auto_ptr<...> function`, and under C++03 `auto_ptr` copy semantics that
transfers ownership to the copy and nulls the source.  Returns the pair
(the copy, the copied-from object after the copy). -/
def copyPlugin (pl : FunctionPlugin) : FunctionPlugin × FunctionPlugin :=
  (⟨pl.function⟩, ⟨none⟩)

/-- A sequence of `initial_composition` queries (position, field index)
against one plugin object, threading the plugin object through the calls: the
method is declared `const` (function.h line 56) on an object whose only member
is the evaluator handle, so a call leaves the object exactly as it was. -/
def runQueriesSt (pl : FunctionPlugin) :
    List (List ℚ × Nat) → List (Except EvalFault ℚ) × FunctionPlugin
  | [] => ([], pl)
  | q :: qs =>
      let r := initialComposition pl q.1 q.2
      let rest := runQueriesSt pl qs
      (r :: rest.1, rest.2)

/-! Below: configuration, `declare_parameters` and `parse_parameters`. -/

/-- A `ParameterHandler` at the granularity this boundary observes: the list
of declared parameter entries, a key together with a description of its type
(spec §6). -/
structure ParameterHandler where
  declared : List (String × String)
deriving DecidableEq

/-- Modelled from the spec: the body of the static
`Function::declare_parameters (ParameterHandler &)` (function.h lines 64-66)
is not in the repository.  Per spec §6 it declares the recognized options
"Function expression" (a mathematical expression string) and
"Number of components" (an integer that must equal the field count). -/
def declareParameters (prm : ParameterHandler) : ParameterHandler :=
  ⟨prm.declared ++
    [("Function expression", "string"), ("Number of components", "integer")]⟩

/-- Invoking the static member through an object, as C++ permits
(`obj.declare_parameters(prm)`): `declare_parameters` is declared `static` in
function.h (line 64), so the instance takes no part in the call. -/
def declareParametersVia (_inst : FunctionPlugin) (prm : ParameterHandler) :
    ParameterHandler :=
  declareParameters prm

/-- The configuration values the Function plugin reads (spec §6). -/
structure FunctionConfig where
  expressionText : String
  nComponents : Nat
deriving DecidableEq

/-- Configuration-time errors of the Function plugin (spec §7). -/
inductive ConfigurationError where
  | invalidExpression : String → ConfigurationError
  | componentCountMismatch : Nat → Nat → ConfigurationError
deriving DecidableEq, Repr

/-- Modelled from the spec: the body of
`Function::parse_parameters (ParameterHandler &)` (function.h lines 74-76) is
not in the repository.  Per spec §4.3/§7 it parses the expression text and the
number of components at configuration time and fails with a
`ConfigurationError` when the expression text is syntactically invalid or the
declared component count differs from the number of compositional fields
configured for the run; on success it installs the parsed evaluator in the
`function` member. -/
def parseParameters (dim fieldCount : Nat) (cfg : FunctionConfig) :
    Except ConfigurationError FunctionPlugin :=
  if cfg.nComponents = fieldCount then
    match parseComponents dim cfg.nComponents cfg.expressionText with
    | some es => .ok ⟨some ⟨es⟩⟩
    | none => .error (.invalidExpression cfg.expressionText)
  else .error (.componentCountMismatch cfg.nComponents fieldCount)

/-! Sample objects used by the concrete witnesses below. -/

/-- An initialized core state at time 1, step 3. -/
def sampleCore : CoreState :=
  { time := 1
    timestepNumber := 3
    stokesSolution := some [1, 2]
    oldStokesSolution := some [0, 1]
    stokesDofHandler := some [0, 1]
    temperatureSolution := some [5]
    oldTemperatureSolution := some [4]
    temperatureDofHandler := some [0] }

/-- The snapshot built from `sampleCore`. -/
def sampleSnap : Snapshot :=
  { time := 1
    timestepNumber := ((3 : Nat) : ℚ)
    stokesSolution := [1, 2]
    oldStokesSolution := [0, 1]
    stokesDofHandler := [0, 1]
    temperatureSolution := [5]
    oldTemperatureSolution := [4]
    temperatureDofHandler := [0] }

/-- A postprocessor that reports whether the snapshot is at step zero. -/
def sampleReporter : Postprocessor :=
  ⟨fun sn => (if sn.timestepNumber = 0 then "step zero" else "step positive", [])⟩

/-- The configuration of the spec's example scenario: expression
`"x^2 + y^2"`, one component. -/
def c7Config : FunctionConfig := ⟨"x^2 + y^2", 1⟩

/-- The parse of `"x^2 + y^2"` over two spatial variables. -/
def c7Expr : Expr := Expr.add (Expr.pow (Expr.var 0) 2) (Expr.pow (Expr.var 1) 2)

/-- The plugin state after `parse_parameters` of the example scenario. -/
def c7Plugin : FunctionPlugin := ⟨some ⟨[c7Expr]⟩⟩

/-! Helper lemmas. -/

/-- A snapshot built from a core state carries its time and the
`double`-valued image of its step number. -/
theorem buildSnapshot_fields {s : CoreState} {sn : Snapshot}
    (h : buildSnapshot s = some sn) :
    sn.time = s.time ∧ sn.timestepNumber = (s.timestepNumber : ℚ) := by
  unfold buildSnapshot at h
  split at h
  · injection h with h
    subst h
    exact ⟨rfl, rfl⟩
  · exact Option.noConfusion h

/-- Snapshots taken earlier survive, unchanged, any sequence of core
actions. -/
theorem runActions_suffix (acts : List CoreAction)
    (st : CoreState × List Snapshot) :
    st.2 <:+ (runActions st acts).2 := by
  induction acts generalizing st with
  | nil => exact List.suffix_refl _
  | cons a rest ih =>
      refine List.IsSuffix.trans ?_ (ih (stepAction st a))
      cases a with
      | snap =>
          cases hb : buildSnapshot st.1 with
          | some sn => simp [stepAction, hb, List.suffix_cons]
          | none => simp [stepAction, hb]
      | advance f => exact List.suffix_refl _

/-- Every snapshot reachable in the system was built from some core state. -/
theorem runActions_built (acts : List CoreAction)
    (st : CoreState × List Snapshot)
    (h : ∀ sn ∈ st.2, ∃ s : CoreState, buildSnapshot s = some sn) :
    ∀ sn ∈ (runActions st acts).2, ∃ s : CoreState, buildSnapshot s = some sn := by
  induction acts generalizing st with
  | nil => exact h
  | cons a rest ih =>
      apply ih
      cases a with
      | snap =>
          cases hb : buildSnapshot st.1 with
          | some sn0 =>
              simp only [stepAction, hb]
              intro x hx
              rcases List.mem_cons.mp hx with rfl | hx
              · exact ⟨st.1, hb⟩
              · exact h x hx
          | none => simpa [stepAction, hb] using h
      | advance f => exact h

/-- The query list threaded through one plugin object is the pointwise
application of `initialComposition`, and the plugin comes back unchanged. -/
theorem runQueriesSt_spec (pl : FunctionPlugin) (qs : List (List ℚ × Nat)) :
    runQueriesSt pl qs =
      (qs.map fun q => initialComposition pl q.1 q.2, pl) := by
  induction qs with
  | nil => rfl
  | cons q rest ih => simp [runQueriesSt, ih]

/-- `parseAll` preserves the component count. -/
theorem parseAll_length {dim : Nat} :
    ∀ {l : List String} {es : List Expr},
      parseAll dim l = some es → es.length = l.length := by
  intro l
  induction l with
  | nil =>
      intro es h
      injection h with h
      subst h
      rfl
  | cons s rest ih =>
      intro es h
      unfold parseAll at h
      cases hp : parseExpression dim s with
      | none => rw [hp] at h; cases h
      | some e =>
          rw [hp] at h
          cases hr : parseAll dim rest with
          | none => rw [hr] at h; cases h
          | some es2 =>
              rw [hr] at h
              injection h with h
              subst h
              simp [ih hr]

/-- A successful `parseComponents` yields exactly the declared number of
component expressions. -/
theorem parseComponents_length {dim n : Nat} {s : String} {es : List Expr}
    (h : parseComponents dim n s = some es) : es.length = n := by
  unfold parseComponents at h
  split at h
  · rename_i hlen
    exact (parseAll_length h).trans hlen
  · cases h

/-! The claims. -/

/-- C1: every snapshot built from a core state has all accessor results
mutually consistent — they reflect the one core state (time, step) at which
the snapshot was constructed — and the snapshot stays exactly as built for its
entire lifetime, across any later sequence of core actions (time steps, mesh
adaptations, further snapshots): earlier snapshots persist unchanged as a
suffix of the snapshot list, and every snapshot present is the image of a
single core state. -/
theorem snapshot_consistent_and_immutable (acts : List CoreAction)
    (st : CoreState × List Snapshot)
    (h : ∀ sn ∈ st.2, ∃ s : CoreState, buildSnapshot s = some sn) :
    st.2 <:+ (runActions st acts).2 ∧
      ∀ sn ∈ (runActions st acts).2, ∃ s : CoreState,
        buildSnapshot s = some sn ∧ sn.time = s.time ∧
          sn.timestepNumber = (s.timestepNumber : ℚ) := by
  refine ⟨runActions_suffix acts st, fun sn hsn => ?_⟩
  obtain ⟨s, hs⟩ := runActions_built acts st h sn hsn
  exact ⟨s, hs, (buildSnapshot_fields hs).1, (buildSnapshot_fields hs).2⟩

/-- Witness for C1 at a concrete system: one snapshot taken, then the core
advanced by a full time step. -/
theorem snapshot_consistent_and_immutable_witness :
    ([] : List Snapshot) <:+
        (runActions (sampleCore, [])
          [CoreAction.snap,
            CoreAction.advance fun c => { c with timestepNumber := c.timestepNumber + 1 }]).2 ∧
      ∀ sn ∈ (runActions (sampleCore, [])
          [CoreAction.snap,
            CoreAction.advance fun c => { c with timestepNumber := c.timestepNumber + 1 }]).2,
        ∃ s : CoreState, buildSnapshot s = some sn ∧ sn.time = s.time ∧
          sn.timestepNumber = (s.timestepNumber : ℚ) :=
  snapshot_consistent_and_immutable
    [CoreAction.snap,
      CoreAction.advance fun c => { c with timestepNumber := c.timestepNumber + 1 }]
    (sampleCore, []) (by simp)

/-- C2: every postprocessor provides `execute`, which, given a state snapshot,
returns a result string (with bounded file side effects) and does not mutate
simulator state: a whole postprocessing pass hands the core state back
unchanged, and each plugin's output is exactly `execute` applied to the one
snapshot of the pass. -/
theorem execute_returns_string_no_mutation (core : CoreState)
    (pps : List Postprocessor) :
    (runPostprocessors core pps).1 = core ∧
      ∀ sn, buildSnapshot core = some sn →
        (runPostprocessors core pps).2 = pps.map fun pp => pp.execute sn := by
  induction pps with
  | nil => exact ⟨rfl, fun sn _ => rfl⟩
  | cons pp rest ih =>
      constructor
      · cases hb : buildSnapshot core with
        | some sn => simpa [runPostprocessors, hb] using ih.1
        | none => simp [runPostprocessors, hb]
      · intro sn hsn
        simp [runPostprocessors, hsn, ih.2 sn hsn]

/-- Witness for C2: one pass of a concrete reporter over `sampleCore`. -/
theorem execute_returns_string_no_mutation_witness :
    (runPostprocessors sampleCore [sampleReporter]).1 = sampleCore ∧
      (runPostprocessors sampleCore [sampleReporter]).2 =
        [sampleReporter].map fun pp => pp.execute sampleSnap :=
  ⟨(execute_returns_string_no_mutation sampleCore [sampleReporter]).1,
    (execute_returns_string_no_mutation sampleCore [sampleReporter]).2 sampleSnap rfl⟩

/-- C3, counterexample: the claim says every accessor returns a read-only
reference, but `get_time` is declared `double get_time () const` — it returns
its result by value (a copy), not by reference. -/
theorem accessor_ref_counterexample :
    accessorReturnKind AccessorName.getTime ≠ ReturnKind.constRef := by
  decide

/-- C3, amended: the snapshot exposes exactly one read-only accessor per
tracked quantity (the correspondence is a bijection); no accessor permits
index-based mutation; the six vector and DoF-map accessors return read-only
(`const`) references, while the time and step-number accessors return scalar
copies by value. -/
theorem accessors_one_per_quantity_read_only :
    Function.Bijective accessorFor ∧
      (∀ a, allowsIndexedMutation (accessorReturnKind a) = false) ∧
      (∀ a, accessorReturnKind a = ReturnKind.byValue ↔
          a = AccessorName.getTime ∨ a = AccessorName.getTimestepNumber) ∧
      ∀ a, accessorReturnKind a = ReturnKind.constRef ↔
          ¬(a = AccessorName.getTime ∨ a = AccessorName.getTimestepNumber) := by
  decide

/-- C4: configuration parsing of the Function plugin succeeds exactly when
the expression text is syntactically valid for the declared component count
and that count equals the run's field count; otherwise it fails with a
`ConfigurationError` at configuration-parse time; and for every plugin state
produced by a successful parse, evaluation inside `initial_composition` never
fails for any position and any field index below the field count. -/
theorem parse_parameters_error_handling (dim fieldCount : Nat)
    (cfg : FunctionConfig) :
    ((∃ pl, parseParameters dim fieldCount cfg = .ok pl) ↔
        (parseComponents dim cfg.nComponents cfg.expressionText).isSome ∧
          cfg.nComponents = fieldCount) ∧
      (¬((parseComponents dim cfg.nComponents cfg.expressionText).isSome ∧
            cfg.nComponents = fieldCount) →
        ∃ e, parseParameters dim fieldCount cfg = .error e) ∧
      ∀ pl, parseParameters dim fieldCount cfg = .ok pl →
        ∀ (p : List ℚ) (i : Nat), i < fieldCount →
          ∃ q, initialComposition pl p i = .ok q := by
  unfold parseParameters
  by_cases hc : cfg.nComponents = fieldCount
  · rw [if_pos hc]
    cases hp : parseComponents dim cfg.nComponents cfg.expressionText with
    | some es =>
        refine ⟨by simp [hp, hc], fun hcontra => absurd ⟨by simp [hp], hc⟩ hcontra, ?_⟩
        intro pl hpl p i hi
        injection hpl with hpl
        subst hpl
        have hlen : es.length = cfg.nComponents := parseComponents_length hp
        have hi' : i < es.length := by omega
        refine ⟨(es.get ⟨i, hi'⟩).eval p, ?_⟩
        simp [initialComposition, ParsedFunction.value,
          List.getElem?_eq_getElem hi']
    | none =>
        refine ⟨by simp [hp], fun _ => ⟨_, rfl⟩, ?_⟩
        intro pl hpl
        cases hpl
  · rw [if_neg hc]
    exact ⟨by simp [hc], fun _ => ⟨_, rfl⟩, fun pl hpl => by cases hpl⟩

/-- Witness for C4: the example configuration parses to `c7Plugin` and
evaluates without failure at field index 0. -/
theorem parse_parameters_error_handling_witness :
    ∃ q, initialComposition c7Plugin [3, 4] 0 = .ok q :=
  (parse_parameters_error_handling 2 1 c7Config).2.2 c7Plugin rfl [3, 4] 0
    (by decide)

/-- C5: `initial_composition` is deterministic and side-effect free — in any
sequence of queries against one configured plugin object, two queries with
identical (position, field index) get identical results, and the plugin object
comes out of the whole sequence exactly as it went in. -/
theorem initial_composition_deterministic_pure (pl : FunctionPlugin)
    (qs : List (List ℚ × Nat)) (i j : Nat) (h : qs[i]? = qs[j]?) :
    (runQueriesSt pl qs).1[i]? = (runQueriesSt pl qs).1[j]? ∧
      (runQueriesSt pl qs).2 = pl := by
  rw [runQueriesSt_spec]
  exact ⟨by simp only [List.getElem?_map, h], rfl⟩

/-- Witness for C5: the same query issued twice against the example plugin. -/
theorem initial_composition_deterministic_pure_witness :
    (runQueriesSt c7Plugin [([3, 4], 0), ([3, 4], 0)]).1[0]? =
        (runQueriesSt c7Plugin [([3, 4], 0), ([3, 4], 0)]).1[1]? ∧
      (runQueriesSt c7Plugin [([3, 4], 0), ([3, 4], 0)]).2 = c7Plugin :=
  initial_composition_deterministic_pure c7Plugin [([3, 4], 0), ([3, 4], 0)] 0 1
    rfl

/-- C6: snapshot construction takes the simulator core's current state and
aborts (yields no snapshot) exactly when some required solution vector or DoF
map is not yet initialized; it succeeds exactly when all are initialized. -/
theorem snapshot_construction_requires_initialized (s : CoreState) :
    (∃ sn, buildSnapshot s = some sn) ↔ s.initialized := by
  rcases s with ⟨time, step, f1, f2, f3, f4, f5, f6⟩
  cases f1 <;> cases f2 <;> cases f3 <;> cases f4 <;> cases f5 <;> cases f6 <;>
    simp [buildSnapshot, CoreState.initialized]

/-- Witness for C6: the fully initialized sample core admits a snapshot. -/
theorem snapshot_construction_requires_initialized_witness :
    sampleCore.initialized :=
  (snapshot_construction_requires_initialized sampleCore).mp ⟨sampleSnap, rfl⟩

section
attribute [local semireducible] Rat.add Rat.mul Rat.sub

/-- C7: with expression `"x^2 + y^2"` configured with one component in a
two-dimensional run with field count 1, configuration parsing succeeds and
`initial_composition` at position (3, 4) with field index 0 returns 25. -/
theorem example_scenario_returns_25 :
    parseParameters 2 1 c7Config = .ok c7Plugin ∧
      initialComposition c7Plugin [3, 4] 0 = .ok 25 :=
  ⟨rfl, by decide⟩

end

/-- C8: copying a `Function` plugin object transfers the `std::auto_ptr`-held
evaluator to the copy and nulls the copied-from object's pointer, so a
subsequent `initial_composition` call on the copied-from object dereferences a
null pointer (a fault); the call is safe when the plugin is configured (holds
an evaluator) with the field index in range and it was never copied from. -/
theorem auto_ptr_copy_nulls_source (pl : FunctionPlugin) (p : List ℚ)
    (n : Nat) :
    (copyPlugin pl).1.function = pl.function ∧
      (copyPlugin pl).2.function = none ∧
      initialComposition (copyPlugin pl).2 p n = .error EvalFault.nullEvaluator ∧
      ∀ f, pl.function = some f → n < f.components.length →
        ∃ q, initialComposition pl p n = .ok q := by
  refine ⟨rfl, rfl, rfl, ?_⟩
  intro f hf hn
  refine ⟨(f.components.get ⟨n, hn⟩).eval p, ?_⟩
  simp [initialComposition, hf, ParsedFunction.value,
    List.getElem?_eq_getElem hn]

/-- Witness for C8 at the example plugin: the configured, never-copied-from
object evaluates successfully. -/
theorem auto_ptr_copy_nulls_source_witness :
    ∃ q, initialComposition c7Plugin [1, 2] 0 = .ok q :=
  (auto_ptr_copy_nulls_source c7Plugin [1, 2] 0).2.2.2 ⟨[c7Expr]⟩ rfl (by decide)

/-- C9: `get_timestep_number` is declared to return the time-step number as a
floating-point `double`, not an integer type — the value a postprocessor
observes is the `double`-valued image of the core's step count — and
`get_time` likewise returns its value by copy, not by reference. -/
theorem timestep_number_returned_as_double :
    accessorReturnType AccessorName.getTimestepNumber = ReturnType.double ∧
      accessorReturnKind AccessorName.getTimestepNumber = ReturnKind.byValue ∧
      accessorReturnKind AccessorName.getTime = ReturnKind.byValue ∧
      ∀ (s : CoreState) (sn : Snapshot), buildSnapshot s = some sn →
        sn.timestepNumber = (s.timestepNumber : ℚ) :=
  ⟨rfl, rfl, rfl, fun _ _ h => (buildSnapshot_fields h).2⟩

/-- Witness for C9 at the sample core state (step count 3). -/
theorem timestep_number_returned_as_double_witness :
    sampleSnap.timestepNumber = ((3 : Nat) : ℚ) :=
  timestep_number_returned_as_double.2.2.2 sampleCore sampleSnap rfl

/-- C10: `declare_parameters` is static — invoked through any plugin instance
(or none), on the same `ParameterHandler` it produces the same declarations;
its behaviour depends only on the handler argument. -/
theorem declare_parameters_instance_independent (i1 i2 : FunctionPlugin)
    (prm : ParameterHandler) :
    declareParametersVia i1 prm = declareParametersVia i2 prm ∧
      declareParametersVia i1 prm = declareParameters prm :=
  ⟨rfl, rfl⟩

end Aspect
